import Mathlib

/-!
# cassowary: the command-line validation layer (`cmd/cassowary/cli.go`)

Shallow embedding of `validateCLI`, `validateCLIFile`, `runLoadTest` and
`outPutJSON`, together with the flag declarations of `runCLI`.

* Go `int` flag values are `Int` (no arithmetic is done on them here).
* A Go `error` result is `Option GoError` (`none` is `nil`).
* A Go `(value, error)` result whose value is only read when the error is nil
  is `Except GoError value`.
* A nil slice and an empty slice are both `[]`.
* Functions that live outside `cli.go` (`client.IsValidURL`,
  `client.SplitHeader`, `Cassowary.Coordinate`, `readFile`,
  `readLocalRemoteFile`, `strconv.Atoi`, `os.OpenFile`, `json.Encoder.Encode`)
  are fields of a `World`, so every theorem holds for whatever they compute.
* Side effects are recorded as a list of `Event`s, in program order.
-/

namespace CassowaryCLI

/-! ## Errors -/

/-- A Go error value: either one of the package-level sentinels created with
`errors.New` in `cli.go`, or an error produced by a callee outside the file. -/
inductive GoError where
  | new (msg : String)
  | external (msg : String)
  deriving DecidableEq, Repr

def errConcurrencyLevel : GoError := .new "Error: Concurrency level cannot be set to: 0"
def errRequestNo : GoError := .new "Error: No. of request cannot be set to: 0"
def errNotValidURL : GoError :=
  .new "Error: Not a valid URL. Must have the following format: http\x7bs\x7d://\x7bhost\x7d"
def errNotValidHeader : GoError := .new "Error: Not a valid header value. Did you forget : ?"
def errDurationValue : GoError := .new "Error: Duration cannot be set to 0 or negative"

/-! ## The flag context (`*cli.Context`) -/

/-- The parsed flags of one command invocation, by flag name. A lookup of a
name the command does not define yields the zero value of the requested type,
as `cli.Context.Int`, `cli.Context.String` and `cli.Context.Bool` do. -/
structure Context where
  ints : List (String × Int)
  strings : List (String × String)
  bools : List (String × Bool)
  deriving DecidableEq, Repr

def Context.Int (c : Context) (name : String) : Int :=
  (c.ints.lookup name).getD 0

def Context.Bool (c : Context) (name : String) : Bool :=
  (c.bools.lookup name).getD false

def Context.String (c : Context) (name : String) : String :=
  (c.strings.lookup name).getD ""

/-! ## Flag declarations of `runCLI` -/

inductive FlagKind where
  | StringFlag
  | IntFlag
  | BoolFlag
  deriving DecidableEq, Repr

/-- One entry of a command's `Flags`. `Names` is the `Name` field split at the
comma (`"c, concurrency"` declares both `c` and `concurrency`). -/
structure Flag where
  kind : FlagKind
  Names : List String
  Required : Bool := false
  Value : Int := 0
  deriving DecidableEq, Repr

inductive Action where
  | validateCLI
  | validateCLIFile
  deriving DecidableEq, Repr

structure Command where
  Name : String
  Flags : List Flag
  action : Action
  deriving DecidableEq, Repr

/-- The `run-file` command (cli.go lines 208-258). -/
def runFileCommand : Command where
  Name := "run-file"
  Flags := [
    { kind := .StringFlag, Names := ["u", "url"], Required := true },
    { kind := .IntFlag, Names := ["c", "concurrency"], Required := true },
    { kind := .IntFlag, Names := ["n", "requests"] },
    { kind := .IntFlag, Names := ["t", "timeout"], Value := 5 },
    { kind := .StringFlag, Names := ["f", "file"], Required := true },
    { kind := .StringFlag, Names := ["p", "prompushgwurl"] },
    { kind := .StringFlag, Names := ["H", "header"] },
    { kind := .BoolFlag, Names := ["F", "json-metrics"] },
    { kind := .StringFlag, Names := ["json-metrics-file"] },
    { kind := .BoolFlag, Names := ["disable-keep-alive"] } ]
  action := .validateCLIFile

/-- The `run` command (cli.go lines 259-317). -/
def runCommand : Command where
  Name := "run"
  Flags := [
    { kind := .StringFlag, Names := ["u", "url"], Required := true },
    { kind := .IntFlag, Names := ["c", "concurrency"], Required := true },
    { kind := .IntFlag, Names := ["n", "requests"], Required := true },
    { kind := .StringFlag, Names := ["d", "duration"] },
    { kind := .IntFlag, Names := ["t", "timeout"], Value := 5 },
    { kind := .StringFlag, Names := ["p", "prompushgwurl"] },
    { kind := .StringFlag, Names := ["H", "header"] },
    { kind := .BoolFlag, Names := ["F", "json-metrics"] },
    { kind := .StringFlag, Names := ["postfile"] },
    { kind := .StringFlag, Names := ["putfile"] },
    { kind := .StringFlag, Names := ["json-metrics-file"] },
    { kind := .BoolFlag, Names := ["disable-keep-alive"] } ]
  action := .validateCLI

/-- Whether the command declares a flag of the given kind under `name`. -/
def Command.defines (cmd : Command) (k : FlagKind) (name : String) : Bool :=
  cmd.Flags.any fun f => f.kind == k && f.Names.contains name

/-- A context the command can hand to its action: every flag it holds is one
the command declares, with the declared kind. -/
def Command.accepts (cmd : Command) (c : Context) : Bool :=
  c.ints.all (fun p => cmd.defines .IntFlag p.1) &&
  c.strings.all (fun p => cmd.defines .StringFlag p.1) &&
  c.bools.all (fun p => cmd.defines .BoolFlag p.1)

/-! ## The load-test configuration (`client.Cassowary`) -/

/-- The fields of `client.Cassowary` that `cli.go` sets. A field left out of a
composite literal has its zero value. -/
structure Cassowary where
  FileMode : Bool := false
  BaseURL : String := ""
  ConcurrencyLevel : Int := 0
  Requests : Int := 0
  RequestHeader : List String := []
  Duration : Int := 0
  PromExport : Bool := false
  PromURL : String := ""
  ExportMetrics : Bool := false
  ExportMetricsFile : String := ""
  DisableKeepAlive : Bool := false
  Timeout : Int := 0
  HTTPMethod : String := ""
  Data : List UInt8 := []
  URLPaths : List String := []
  deriving DecidableEq, Repr

/-! ## Callees outside `cli.go`, effects and outcomes -/

deriving instance DecidableEq for Except

/-- What the functions called from `cli.go` but defined elsewhere return.
`M` is the type `client.ResultMetrics`. `OpenFile name` is
`os.OpenFile(name, O_WRONLY|O_CREATE|O_TRUNC, 0644)` (`none`: the file is
open); `Encode name m` is `json.NewEncoder(f).Encode(m)` on the file opened
under `name`. `Coordinate` is taken not to change the fields `runLoadTest`
reads afterwards. -/
structure World (M : Type) where
  IsValidURL : String → Bool
  SplitHeader : String → Int × List String
  Atoi : String → Except GoError Int
  readFile : String → Except GoError (List UInt8)
  readLocalRemoteFile : String → Except GoError (List String)
  Coordinate : Cassowary → Except GoError M
  OpenFile : String → Option GoError
  Encode : String → M → Option GoError

/-- An observable step of a command, in program order. -/
inductive Event (M : Type) where
  /-- The call `c.Coordinate()` on the configuration: the load test starts. -/
  | coordinate (cass : Cassowary)
  /-- The call `outPutResults(metrics)`, which prints the summary table. -/
  | outPutResults (metrics : M)
  /-- The call of `os.OpenFile` on the file name. -/
  | openFile (fileName : String)
  /-- The call `enc.Encode(metrics)`, which writes the metrics as JSON to the open file. -/
  | encode (fileName : String) (metrics : M)
  /-- The deferred `f.Close()`. -/
  | close (fileName : String)
  deriving DecidableEq, Repr

/-- The result of running a function of `cli.go`: the `error` it returns and
the events it caused. -/
structure Outcome (M : Type) where
  ret : Option GoError
  trace : List (Event M)
  deriving DecidableEq, Repr

/-- The configuration handed to `Coordinate`, if the load test was started. -/
def Outcome.started {M : Type} (o : Outcome M) : Option Cassowary :=
  o.trace.findSome? fun e =>
    match e with
    | .coordinate cass => some cass
    | _ => none

/-- The (file name, metrics) pairs written as JSON. -/
def Outcome.written {M : Type} (o : Outcome M) : List (String × M) :=
  o.trace.filterMap fun e =>
    match e with
    | .encode fileName metrics => some (fileName, metrics)
    | _ => none

/-- The metrics printed by `outPutResults`. -/
def Outcome.printed {M : Type} (o : Outcome M) : List M :=
  o.trace.filterMap fun e =>
    match e with
    | .outPutResults metrics => some metrics
    | _ => none

/-! ## `outPutJSON` and `runLoadTest` (cli.go lines 42-68) -/

def outPutJSON {M : Type} (w : World M) (fileName : String) (metrics : M) : Outcome M :=
  -- default filename for json metrics output.
  let fileName := if fileName = "" then "out.json" else fileName
  match w.OpenFile fileName with
  | some err => { ret := some err, trace := [.openFile fileName] }
  | none =>
    { ret := w.Encode fileName metrics,
      trace := [.openFile fileName, .encode fileName metrics, .close fileName] }

def runLoadTest {M : Type} (w : World M) (c : Cassowary) : Outcome M :=
  match w.Coordinate c with
  | .error err => { ret := some err, trace := [.coordinate c] }
  | .ok metrics =>
    if c.ExportMetrics then
      let out := outPutJSON w c.ExportMetricsFile metrics
      { ret := out.ret, trace := .coordinate c :: .outPutResults metrics :: out.trace }
    else
      { ret := none, trace := [.coordinate c, .outPutResults metrics] }

/-! ## `validateCLI` (cli.go lines 70-149) -/

def validateCLI {M : Type} (w : World M) (c : Context) : Outcome M :=
  if c.Int "concurrency" = 0 then { ret := some errConcurrencyLevel, trace := [] }
  else if c.Int "requests" = 0 then { ret := some errRequestNo, trace := [] }
  else
    -- lines 86-95: `duration` stays 0 unless the flag is set
    let parsed : Except GoError Int :=
      if c.String "duration" ≠ "" then
        match w.Atoi (c.String "duration") with
        | .error err => .error err
        | .ok duration => if duration ≤ 0 then .error errDurationValue else .ok duration
      else .ok 0
    match parsed with
    | .error err => { ret := some err, trace := [] }
    | .ok duration =>
      if w.IsValidURL (c.String "url") = false then { ret := some errNotValidURL, trace := [] }
      else
        let prometheusEnabled := if c.String "prompushgwurl" ≠ "" then true else false
        -- lines 105-111: `header` stays nil unless the flag is set
        let split : Except GoError (List String) :=
          if c.String "header" ≠ "" then
            if (w.SplitHeader (c.String "header")).1 ≠ 2 then .error errNotValidHeader
            else .ok (w.SplitHeader (c.String "header")).2
          else .ok []
        match split with
        | .error err => { ret := some err, trace := [] }
        | .ok header =>
          -- lines 113-129: method and body
          let body : Except GoError (String × List UInt8) :=
            if c.String "postfile" ≠ "" then
              match w.readFile (c.String "postfile") with
              | .error err => .error err
              | .ok fileData => .ok ("POST", fileData)
            else if c.String "putfile" ≠ "" then
              match w.readFile (c.String "putfile") with
              | .error err => .error err
              | .ok fileData => .ok ("PUT", fileData)
            else .ok ("GET", [])
          match body with
          | .error err => { ret := some err, trace := [] }
          | .ok (httpMethod, data) =>
            runLoadTest w
              { FileMode := false,
                BaseURL := c.String "url",
                ConcurrencyLevel := c.Int "concurrency",
                Requests := c.Int "requests",
                RequestHeader := header,
                Duration := duration,
                PromExport := prometheusEnabled,
                PromURL := c.String "prompushgwurl",
                ExportMetrics := c.Bool "json-metrics",
                ExportMetricsFile := c.String "json-metrics-file",
                DisableKeepAlive := c.Bool "disable-keep-alive",
                Timeout := c.Int "timeout",
                HTTPMethod := httpMethod,
                Data := data }

/-! ## `validateCLIFile` (cli.go lines 151-197) -/

def validateCLIFile {M : Type} (w : World M) (c : Context) : Outcome M :=
  if c.Int "concurrency" = 0 then { ret := some errConcurrencyLevel, trace := [] }
  else if w.IsValidURL (c.String "url") = false then
    { ret := some errNotValidURL, trace := [] }
  else
    let prometheusEnabled := if c.String "prompushgwurl" ≠ "" then true else false
    let split : Except GoError (List String) :=
      if c.String "header" ≠ "" then
        if (w.SplitHeader (c.String "header")).1 ≠ 2 then .error errNotValidHeader
        else .ok (w.SplitHeader (c.String "header")).2
      else .ok []
    match split with
    | .error err => { ret := some err, trace := [] }
    | .ok header =>
      match w.readLocalRemoteFile (c.String "file") with
      | .error _ => { ret := none, trace := [] }   -- line 177: `return nil`
      | .ok urlSuffixes =>
        runLoadTest w
          { FileMode := true,
            BaseURL := c.String "url",
            ConcurrencyLevel := c.Int "concurrency",
            RequestHeader := header,
            PromExport := prometheusEnabled,
            PromURL := c.String "prompushgwurl",
            ExportMetrics := c.Bool "json-metrics",
            ExportMetricsFile := c.String "json-metrics-file",
            DisableKeepAlive := c.Bool "diable-keep-alive",
            Timeout := c.Int "timeout",
            Requests := c.Int "requests",
            URLPaths := urlSuffixes,
            HTTPMethod := "GET" }

/-- The action `runCLI` binds to a command. -/
def Command.run {M : Type} (cmd : Command) (w : World M) (c : Context) : Outcome M :=
  match cmd.action with
  | .validateCLI => validateCLI w c
  | .validateCLIFile => validateCLIFile w c

/-! ## Sample inputs -/

/-- A sample environment: one valid URL, one well-formed header, a readable
body file and suffix list, a load test that succeeds with metrics `7`, and a
JSON target that cannot be opened. -/
def sampleWorld : World Nat where
  IsValidURL := fun s => s == "http://localhost:8000"
  SplitHeader := fun s =>
    if s = "Host: www.example.com" then (2, ["Host", " www.example.com"]) else (1, [s])
  Atoi := fun s =>
    if s = "30" then .ok 30
    else if s = "0" then .ok 0
    else if s = "-5" then .ok (-5)
    else .error (.external "strconv.Atoi: invalid syntax")
  readFile := fun s =>
    if s = "body.json" then .ok [123, 125]
    else .error (.external "open: no such file or directory")
  readLocalRemoteFile := fun s =>
    if s = "urls.txt" then .ok ["/get", "/status/200"]
    else .error (.external "open: no such file or directory")
  Coordinate := fun _ => .ok 7
  OpenFile := fun s =>
    if s = "/no/such/dir/out.json" then some (.external "open: no such file or directory")
    else none
  Encode := fun _ _ => none

/-- An environment in which the load test itself fails. -/
def failingWorld : World Nat :=
  { sampleWorld with Coordinate := fun _ => .error (.external "coordinate failed") }

/-- Flags of `cassowary run -u http://localhost:8000 -c 10 -n 100`. -/
def runCtx : Context where
  ints := [("concurrency", 10), ("requests", 100), ("timeout", 5)]
  strings := [("url", "http://localhost:8000")]
  bools := []


/-- Flags of `cassowary run -u http://localhost:8000 -c -1 -n 100`. -/
def negConcurrencyCtx : Context :=
  { runCtx with ints := [("concurrency", -1), ("requests", 100), ("timeout", 5)] }

/-- Flags of `cassowary run -u http://localhost:8000 -c 0 -n 100`. -/
def zeroConcurrencyCtx : Context :=
  { runCtx with ints := [("concurrency", 0), ("requests", 100), ("timeout", 5)] }

/-- Flags of `cassowary run-file -u http://localhost:8000 -c 10 -f urls.txt`
(`-n` is optional for `run-file` and is left at 0). -/
def runFileCtx : Context where
  ints := [("concurrency", 10), ("requests", 0), ("timeout", 5)]
  strings := [("url", "http://localhost:8000"), ("file", "urls.txt")]
  bools := []

/-- Flags of `cassowary run-file -u http://localhost:8000 -c 10 -f missing.txt`. -/
def missingFileCtx : Context :=
  { runFileCtx with strings := [("url", "http://localhost:8000"), ("file", "missing.txt")] }

/-- Flags of
`cassowary run-file -u http://localhost:8000 -c 10 -f urls.txt --disable-keep-alive`. -/
def keepAliveFileCtx : Context :=
  { runFileCtx with bools := [("disable-keep-alive", true)] }

/-- Flags of `cassowary run -u http://localhost:8000 -c 10 -n 100 --disable-keep-alive`. -/
def keepAliveCtx : Context :=
  { runCtx with bools := [("disable-keep-alive", true)] }

/-- The `run` flags of `runCtx` with further string flags set. -/
def runCtxWith (flags : List (String × String)) : Context :=
  { runCtx with strings := flags ++ runCtx.strings }

/-- The `run-file` flags of `runFileCtx` with further string flags set. -/
def runFileCtxWith (flags : List (String × String)) : Context :=
  { runFileCtx with strings := flags ++ runFileCtx.strings }

/-- What `validateCLI` builds from `runCtx`. -/
def runCfg : Cassowary where
  BaseURL := "http://localhost:8000"
  ConcurrencyLevel := 10
  Requests := 100
  Timeout := 5
  HTTPMethod := "GET"

/-- What `validateCLIFile` builds from `runFileCtx`. -/
def runFileCfg : Cassowary where
  FileMode := true
  BaseURL := "http://localhost:8000"
  ConcurrencyLevel := 10
  Timeout := 5
  HTTPMethod := "GET"
  URLPaths := ["/get", "/status/200"]

/-- Flags of `cassowary run -u localhost -c 10 -n 100`. -/
def badURLCtx : Context :=
  { runCtx with strings := [("url", "localhost")] }

/-- Flags of `cassowary run-file -u localhost -c 10 -f urls.txt`. -/
def badURLFileCtx : Context :=
  { runFileCtx with strings := [("url", "localhost"), ("file", "urls.txt")] }

/-- A configuration with JSON export to the default file. -/
def exportCfg : Cassowary :=
  { runCfg with ExportMetrics := true }

/-- A configuration with JSON export to `metrics.json`. -/
def exportNamedCfg : Cassowary :=
  { runCfg with ExportMetrics := true, ExportMetricsFile := "metrics.json" }

/-- A configuration with JSON export to a file in a directory that does not exist
(`--json-metrics --json-metrics-file /no/such/dir/out.json`). -/
def exportUnwritableCfg : Cassowary :=
  { runCfg with ExportMetrics := true, ExportMetricsFile := "/no/such/dir/out.json" }

/-! ## Shape of the two validators -/

/-- Once `runLoadTest` is entered, `Coordinate` is called on the configuration it was given. -/
theorem started_runLoadTest {M : Type} (w : World M) (cass : Cassowary) :
    (runLoadTest w cass).started = some cass := by
  unfold runLoadTest
  split
  · simp [Outcome.started]
  · split <;> simp [Outcome.started]

/-- Everything that holds of the flags and of the configuration when `validateCLI`
starts the load test. -/
theorem validateCLI_run {M : Type} (w : World M) (c : Context) (cass : Cassowary)
    (h : (validateCLI w c).started = some cass) :
    c.Int "concurrency" ≠ 0 ∧ c.Int "requests" ≠ 0 ∧
    (c.String "duration" = "" ∧ cass.Duration = 0 ∨
      c.String "duration" ≠ "" ∧ w.Atoi (c.String "duration") = .ok cass.Duration ∧
        0 < cass.Duration) ∧
    w.IsValidURL (c.String "url") = true ∧
    (c.String "header" = "" ∧ cass.RequestHeader = [] ∨
      c.String "header" ≠ "" ∧ (w.SplitHeader (c.String "header")).1 = 2 ∧
        cass.RequestHeader = (w.SplitHeader (c.String "header")).2) ∧
    (c.String "postfile" ≠ "" ∧ cass.HTTPMethod = "POST" ∧
        w.readFile (c.String "postfile") = .ok cass.Data ∨
      c.String "postfile" = "" ∧ c.String "putfile" ≠ "" ∧ cass.HTTPMethod = "PUT" ∧
        w.readFile (c.String "putfile") = .ok cass.Data ∨
      c.String "postfile" = "" ∧ c.String "putfile" = "" ∧ cass.HTTPMethod = "GET" ∧
        cass.Data = []) ∧
    cass.FileMode = false ∧ cass.BaseURL = c.String "url" ∧
    cass.ConcurrencyLevel = c.Int "concurrency" ∧ cass.Requests = c.Int "requests" ∧
    cass.PromExport = decide (c.String "prompushgwurl" ≠ "") ∧
    cass.PromURL = c.String "prompushgwurl" ∧
    cass.ExportMetrics = c.Bool "json-metrics" ∧
    cass.ExportMetricsFile = c.String "json-metrics-file" ∧
    cass.DisableKeepAlive = c.Bool "disable-keep-alive" ∧
    cass.Timeout = c.Int "timeout" ∧ cass.URLPaths = [] := by
  unfold validateCLI at h
  split at h
  · simp [Outcome.started] at h
  split at h
  · simp [Outcome.started] at h
  dsimp only at h
  split at h
  · simp [Outcome.started] at h
  split at h
  · simp [Outcome.started] at h
  split at h
  · simp [Outcome.started] at h
  split at h
  · simp [Outcome.started] at h
  rename_i hc hr _ duration hdur hurl _ header hhdr _ httpMethod data hbody
  rw [started_runLoadTest] at h
  simp only [Option.some.injEq] at h
  subst h
  refine ⟨hc, hr, ?_, by simpa using hurl, ?_, ?_, rfl, rfl, rfl, rfl, ?_, rfl, rfl, rfl, rfl,
    rfl, rfl⟩ <;> dsimp only
  · by_cases hd : c.String "duration" = ""
    · left
      simp [hd] at hdur
      exact ⟨hd, hdur.symm⟩
    · right
      simp only [ne_eq, hd, not_false_eq_true, if_true] at hdur
      split at hdur
      · simp at hdur
      · rename_i d hd2
        split at hdur
        · simp at hdur
        · rename_i hpos
          simp only [Except.ok.injEq] at hdur
          subst hdur
          exact ⟨hd, hd2, by omega⟩
  · by_cases hh : c.String "header" = ""
    · left
      simp [hh] at hhdr
      exact ⟨hh, hhdr⟩
    · right
      simp only [ne_eq, hh, not_false_eq_true, if_true] at hhdr
      split at hhdr
      · simp at hhdr
      · rename_i h2
        simp only [Except.ok.injEq] at hhdr
        exact ⟨hh, by simpa using h2, hhdr.symm⟩
  · by_cases hp : c.String "postfile" = ""
    · right
      by_cases hq : c.String "putfile" = ""
      · right
        simp [hp, hq] at hbody
        exact ⟨hp, hq, hbody.1.symm, hbody.2⟩
      · left
        simp only [ne_eq, hp, hq, not_true_eq_false, not_false_eq_true, if_true, if_false] at hbody
        split at hbody
        · simp at hbody
        · rename_i fd hfd
          simp only [Except.ok.injEq, Prod.mk.injEq] at hbody
          exact ⟨hp, hq, hbody.1.symm, by rw [hfd, hbody.2]⟩
    · left
      simp only [ne_eq, hp, not_false_eq_true, if_true] at hbody
      split at hbody
      · simp at hbody
      · rename_i fd hfd
        simp only [Except.ok.injEq, Prod.mk.injEq] at hbody
        exact ⟨hp, hbody.1.symm, by rw [hfd, hbody.2]⟩
  · by_cases hp : c.String "prompushgwurl" = "" <;> simp [hp]

/-- Everything that holds of the flags and of the configuration when
`validateCLIFile` starts the load test. -/
theorem validateCLIFile_run {M : Type} (w : World M) (c : Context) (cass : Cassowary)
    (h : (validateCLIFile w c).started = some cass) :
    c.Int "concurrency" ≠ 0 ∧
    w.IsValidURL (c.String "url") = true ∧
    (c.String "header" = "" ∧ cass.RequestHeader = [] ∨
      c.String "header" ≠ "" ∧ (w.SplitHeader (c.String "header")).1 = 2 ∧
        cass.RequestHeader = (w.SplitHeader (c.String "header")).2) ∧
    w.readLocalRemoteFile (c.String "file") = .ok cass.URLPaths ∧
    cass.FileMode = true ∧ cass.BaseURL = c.String "url" ∧
    cass.ConcurrencyLevel = c.Int "concurrency" ∧ cass.Requests = c.Int "requests" ∧
    cass.PromExport = decide (c.String "prompushgwurl" ≠ "") ∧
    cass.PromURL = c.String "prompushgwurl" ∧
    cass.ExportMetrics = c.Bool "json-metrics" ∧
    cass.ExportMetricsFile = c.String "json-metrics-file" ∧
    cass.DisableKeepAlive = c.Bool "diable-keep-alive" ∧
    cass.Timeout = c.Int "timeout" ∧ cass.HTTPMethod = "GET" ∧ cass.Data = [] ∧
    cass.Duration = 0 := by
  unfold validateCLIFile at h
  split at h
  · simp [Outcome.started] at h
  split at h
  · simp [Outcome.started] at h
  dsimp only at h
  split at h
  · simp [Outcome.started] at h
  split at h
  · simp [Outcome.started] at h
  rename_i hc hurl _ header hhdr _ urlSuffixes hfile
  rw [started_runLoadTest] at h
  simp only [Option.some.injEq] at h
  subst h
  refine ⟨hc, by simpa using hurl, ?_, hfile, rfl, rfl, rfl, rfl, ?_, rfl, rfl, rfl, rfl, rfl,
    rfl, rfl, rfl⟩ <;> dsimp only
  · by_cases hh : c.String "header" = ""
    · left
      simp [hh] at hhdr
      exact ⟨hh, hhdr⟩
    · right
      simp only [ne_eq, hh, not_false_eq_true, if_true] at hhdr
      split at hhdr
      · simp at hhdr
      · rename_i h2
        simp only [Except.ok.injEq] at hhdr
        exact ⟨hh, by simpa using h2, hhdr.symm⟩
  · by_cases hp : c.String "prompushgwurl" = "" <;> simp [hp]

/-- A flag name that a command does not declare as a boolean flag reads as `false`
in every context the command accepts. -/
theorem bool_of_undeclared (cmd : Command) (c : Context) (name : String)
    (hacc : cmd.accepts c = true) (hundef : cmd.defines .BoolFlag name = false) :
    c.Bool name = false := by
  have hall : c.bools.all (fun p => cmd.defines .BoolFlag p.1) = true := by
    unfold Command.accepts at hacc
    simp only [Bool.and_eq_true] at hacc
    exact hacc.2
  have key : ∀ l : List (String × Bool),
      l.all (fun p => cmd.defines .BoolFlag p.1) = true → l.lookup name = none := by
    intro l
    induction l with
    | nil => intro _; rfl
    | cons p l ih =>
      intro hl
      simp only [List.all_cons, Bool.and_eq_true] at hl
      obtain ⟨k, v⟩ := p
      have hne : (name == k) = false := by
        by_cases hk : name = k
        · subst hk
          simp [hundef] at hl
        · simpa using hk
      simp only [List.lookup, hne]
      exact ih hl.2
  simp [Context.Bool, key c.bools hall]

/-! ## C1: concurrency level -/

/-- C1, as stated, fails: `cassowary run -u http://localhost:8000 -c -1 -n 100` is a
context the `run` command accepts, passes every check of `validateCLI` and starts
the load test with `ConcurrencyLevel = -1`, which is not `≥ 1`. -/
theorem C1_negative_concurrency_starts :
    runCommand.accepts negConcurrencyCtx = true ∧
    (validateCLI sampleWorld negConcurrencyCtx).started =
      some { runCfg with ConcurrencyLevel := -1 } ∧
    ¬ (1 ≤ ({ runCfg with ConcurrencyLevel := -1 } : Cassowary).ConcurrencyLevel) := by
  decide

/-- C1, amended: whenever `validateCLI` or `validateCLIFile` starts the load test,
the configuration's `ConcurrencyLevel` is the value of the `concurrency` flag and is
different from 0; a concurrency of exactly 0 makes both return `errConcurrencyLevel`
without any effect. -/
theorem C1_concurrency_nonzero {M : Type} (w : World M) (c : Context) :
    (∀ cass, (validateCLI w c).started = some cass →
      cass.ConcurrencyLevel = c.Int "concurrency" ∧ cass.ConcurrencyLevel ≠ 0) ∧
    (∀ cass, (validateCLIFile w c).started = some cass →
      cass.ConcurrencyLevel = c.Int "concurrency" ∧ cass.ConcurrencyLevel ≠ 0) ∧
    (c.Int "concurrency" = 0 →
      validateCLI w c = { ret := some errConcurrencyLevel, trace := [] } ∧
      validateCLIFile w c = { ret := some errConcurrencyLevel, trace := [] }) := by
  refine ⟨?_, ?_, ?_⟩
  · intro cass h
    have hr := validateCLI_run w c cass h
    obtain ⟨hc, -, -, -, -, -, -, -, hcl, -⟩ := hr
    exact ⟨hcl, by rw [hcl]; exact hc⟩
  · intro cass h
    have hr := validateCLIFile_run w c cass h
    obtain ⟨hc, -, -, -, -, -, hcl, -⟩ := hr
    exact ⟨hcl, by rw [hcl]; exact hc⟩
  · intro h0
    constructor
    · unfold validateCLI
      simp [h0]
    · unfold validateCLIFile
      simp [h0]

/-- C1, amended, at `-c 10` (started, level 10 in both commands) and at `-c 0`
(rejected by both). -/
theorem C1_concurrency_nonzero_witness :
    ((validateCLI sampleWorld runCtx).started = some runCfg ∧
      runCfg.ConcurrencyLevel = runCtx.Int "concurrency" ∧ runCfg.ConcurrencyLevel ≠ 0) ∧
    ((validateCLIFile sampleWorld runFileCtx).started = some runFileCfg ∧
      runFileCfg.ConcurrencyLevel = runFileCtx.Int "concurrency" ∧
      runFileCfg.ConcurrencyLevel ≠ 0) ∧
    (zeroConcurrencyCtx.Int "concurrency" = 0 ∧
      validateCLI sampleWorld zeroConcurrencyCtx =
        { ret := some errConcurrencyLevel, trace := [] } ∧
      validateCLIFile sampleWorld zeroConcurrencyCtx =
        { ret := some errConcurrencyLevel, trace := [] }) :=
  ⟨⟨by decide, (C1_concurrency_nonzero sampleWorld runCtx).1 runCfg (by decide)⟩,
   ⟨by decide, (C1_concurrency_nonzero sampleWorld runFileCtx).2.1 runFileCfg (by decide)⟩,
   ⟨by decide, (C1_concurrency_nonzero sampleWorld zeroConcurrencyCtx).2.2 (by decide)⟩⟩

/-! ## C2: unreadable suffix source -/

/-- C2: in `validateCLIFile`, when the checks before line 175 pass and
`readLocalRemoteFile` fails on the `file` flag, no load test is started and no event
happens, but the value returned to the caller is `nil`, not the error
(line 177 is `return nil`). -/
theorem C2_unreadable_source_returns_nil {M : Type} (w : World M) (c : Context)
    (err : GoError)
    (hconc : c.Int "concurrency" ≠ 0)
    (hurl : w.IsValidURL (c.String "url") = true)
    (hhdr : c.String "header" = "" ∨ (w.SplitHeader (c.String "header")).1 = 2)
    (hread : w.readLocalRemoteFile (c.String "file") = .error err) :
    validateCLIFile w c = { ret := none, trace := [] } ∧
    (validateCLIFile w c).started = none := by
  have h : validateCLIFile w c = { ret := none, trace := [] } := by
    unfold validateCLIFile
    rcases hhdr with hh | hh
    · simp [hconc, hurl, hh, hread]
    · by_cases he : c.String "header" = "" <;> simp [hconc, hurl, hh, he, hread]
  exact ⟨h, by rw [h]; rfl⟩

/-- C2 at `cassowary run-file -u http://localhost:8000 -c 10 -f missing.txt`: the
source cannot be read and `validateCLIFile` returns `nil`. -/
theorem C2_unreadable_source_returns_nil_witness :
    sampleWorld.readLocalRemoteFile (missingFileCtx.String "file") =
      .error (.external "open: no such file or directory") ∧
    validateCLIFile sampleWorld missingFileCtx = { ret := none, trace := [] } ∧
    (validateCLIFile sampleWorld missingFileCtx).started = none :=
  ⟨by decide,
   C2_unreadable_source_returns_nil sampleWorld missingFileCtx
     (.external "open: no such file or directory") (by decide) (by decide)
     (Or.inl (by decide)) (by decide)⟩

/-! ## C3: request count -/

/-- C4: in `validateCLI`, with non-zero concurrency and requests: an empty
`duration` flag gives `Duration = 0` whenever the load test starts; a non-empty flag
that `Atoi` parses as `d ≤ 0` gives `errDurationValue` and no effect; a non-empty flag
that `Atoi` rejects gives the parse error and no effect; and whenever the load test
starts with a non-empty flag, `Duration` is the parsed integer and is positive. -/
theorem C4_duration {M : Type} (w : World M) (c : Context)
    (hconc : c.Int "concurrency" ≠ 0) (hreq : c.Int "requests" ≠ 0) :
    (c.String "duration" = "" →
      ∀ cass, (validateCLI w c).started = some cass → cass.Duration = 0) ∧
    (∀ d, c.String "duration" ≠ "" → w.Atoi (c.String "duration") = .ok d → d ≤ 0 →
      validateCLI w c = { ret := some errDurationValue, trace := [] }) ∧
    (∀ err, c.String "duration" ≠ "" → w.Atoi (c.String "duration") = .error err →
      validateCLI w c = { ret := some err, trace := [] }) ∧
    (∀ cass, c.String "duration" ≠ "" → (validateCLI w c).started = some cass →
      w.Atoi (c.String "duration") = .ok cass.Duration ∧ 0 < cass.Duration) := by
  refine ⟨?_, ?_, ?_, ?_⟩
  · intro hd cass h
    obtain ⟨-, -, hdur, -⟩ := validateCLI_run w c cass h
    rcases hdur with ⟨-, h0⟩ | ⟨hne, -⟩
    · exact h0
    · exact absurd hd hne
  · intro d hd hparse hle
    unfold validateCLI
    simp [hconc, hreq, hd, hparse, hle]
  · intro err hd hparse
    unfold validateCLI
    simp [hconc, hreq, hd, hparse]
  · intro cass hd h
    obtain ⟨-, -, hdur, -⟩ := validateCLI_run w c cass h
    rcases hdur with ⟨he, -⟩ | ⟨-, hp, hpos⟩
    · exact absurd he hd
    · exact ⟨hp, hpos⟩

/-- C4 at `run` without `-d`, with `-d -5`, with `-d soon` and with `-d 30`. -/
theorem C4_duration_witness :
    (runCtx.String "duration" = "" ∧
      (validateCLI sampleWorld runCtx).started = some runCfg ∧ runCfg.Duration = 0) ∧
    (sampleWorld.Atoi ((runCtxWith [("duration", "-5")]).String "duration") = .ok (-5) ∧
      validateCLI sampleWorld (runCtxWith [("duration", "-5")]) =
        { ret := some errDurationValue, trace := [] }) ∧
    (sampleWorld.Atoi ((runCtxWith [("duration", "soon")]).String "duration") =
        .error (.external "strconv.Atoi: invalid syntax") ∧
      validateCLI sampleWorld (runCtxWith [("duration", "soon")]) =
        { ret := some (.external "strconv.Atoi: invalid syntax"), trace := [] }) ∧
    ((validateCLI sampleWorld (runCtxWith [("duration", "30")])).started =
        some { runCfg with Duration := 30 } ∧
      sampleWorld.Atoi ((runCtxWith [("duration", "30")]).String "duration") =
        .ok ({ runCfg with Duration := 30 } : Cassowary).Duration ∧
      0 < ({ runCfg with Duration := 30 } : Cassowary).Duration) :=
  ⟨⟨by decide, by decide,
    (C4_duration sampleWorld runCtx (by decide) (by decide)).1 (by decide) runCfg (by decide)⟩,
   ⟨by decide,
    (C4_duration sampleWorld (runCtxWith [("duration", "-5")]) (by decide) (by decide)).2.1
      (-5) (by decide) (by decide) (by decide)⟩,
   ⟨by decide,
    (C4_duration sampleWorld (runCtxWith [("duration", "soon")]) (by decide) (by decide)).2.2.1
      (.external "strconv.Atoi: invalid syntax") (by decide) (by decide)⟩,
   ⟨by decide,
    (C4_duration sampleWorld (runCtxWith [("duration", "30")]) (by decide) (by decide)).2.2.2
      { runCfg with Duration := 30 } (by decide) (by decide)⟩⟩

/-! ## C5: base URL -/

/-- C5: `validateCLI` and `validateCLIFile` start the load test only if
`client.IsValidURL` accepts the `url` flag, and then `BaseURL` is that flag; when the
checks placed before the URL check pass (concurrency, and for `validateCLI` also
requests and duration) and `IsValidURL` is false, the result is `errNotValidURL` and
nothing happens. -/
theorem C5_base_url {M : Type} (w : World M) (c : Context) :
    (∀ cass, (validateCLI w c).started = some cass →
      w.IsValidURL (c.String "url") = true ∧ cass.BaseURL = c.String "url") ∧
    (∀ cass, (validateCLIFile w c).started = some cass →
      w.IsValidURL (c.String "url") = true ∧ cass.BaseURL = c.String "url") ∧
    (c.Int "concurrency" ≠ 0 → c.Int "requests" ≠ 0 →
      (c.String "duration" = "" ∨ ∃ d, w.Atoi (c.String "duration") = .ok d ∧ 0 < d) →
      w.IsValidURL (c.String "url") = false →
      validateCLI w c = { ret := some errNotValidURL, trace := [] }) ∧
    (c.Int "concurrency" ≠ 0 → w.IsValidURL (c.String "url") = false →
      validateCLIFile w c = { ret := some errNotValidURL, trace := [] }) := by
  refine ⟨?_, ?_, ?_, ?_⟩
  · intro cass h
    obtain ⟨-, -, -, hurl, -, -, -, hbase, -⟩ := validateCLI_run w c cass h
    exact ⟨hurl, hbase⟩
  · intro cass h
    obtain ⟨-, hurl, -, -, -, hbase, -⟩ := validateCLIFile_run w c cass h
    exact ⟨hurl, hbase⟩
  · intro hconc hreq hdur hurl
    unfold validateCLI
    rcases hdur with hd | ⟨d, hp, hpos⟩
    · simp [hconc, hreq, hd, hurl]
    · by_cases hd : c.String "duration" = ""
      · simp [hconc, hreq, hd, hurl]
      · simp [hconc, hreq, hd, hp, Int.not_le.mpr hpos, hurl]
  · intro hconc hurl
    unfold validateCLIFile
    simp [hconc, hurl]

/-- C5 at a valid URL (both commands start with it as `BaseURL`) and at
`-u localhost` (both commands return `errNotValidURL`). -/
theorem C5_base_url_witness :
    ((validateCLI sampleWorld runCtx).started = some runCfg ∧
      sampleWorld.IsValidURL (runCtx.String "url") = true ∧
      runCfg.BaseURL = runCtx.String "url") ∧
    ((validateCLIFile sampleWorld runFileCtx).started = some runFileCfg ∧
      sampleWorld.IsValidURL (runFileCtx.String "url") = true ∧
      runFileCfg.BaseURL = runFileCtx.String "url") ∧
    (sampleWorld.IsValidURL (badURLCtx.String "url") = false ∧
      validateCLI sampleWorld badURLCtx = { ret := some errNotValidURL, trace := [] }) ∧
    (sampleWorld.IsValidURL (badURLFileCtx.String "url") = false ∧
      validateCLIFile sampleWorld badURLFileCtx =
        { ret := some errNotValidURL, trace := [] }) :=
  ⟨⟨by decide, (C5_base_url sampleWorld runCtx).1 runCfg (by decide)⟩,
   ⟨by decide, (C5_base_url sampleWorld runFileCtx).2.1 runFileCfg (by decide)⟩,
   ⟨by decide,
    (C5_base_url sampleWorld badURLCtx).2.2.1 (by decide) (by decide) (Or.inl (by decide))
      (by decide)⟩,
   ⟨by decide, (C5_base_url sampleWorld badURLFileCtx).2.2.2 (by decide) (by decide)⟩⟩

/-! ## C6: request header -/

/-- C6: in both validators, when the earlier checks pass and the `header` flag is
non-empty with a `SplitHeader` count other than 2, the result is `errNotValidHeader`
and nothing happens; whenever the load test starts with a non-empty `header` flag,
`RequestHeader` is the list `SplitHeader` returned and the count it reported is 2;
with an empty `header` flag `RequestHeader` is empty. -/
theorem C6_request_header {M : Type} (w : World M) (c : Context) :
    (c.Int "concurrency" ≠ 0 → c.Int "requests" ≠ 0 →
      (c.String "duration" = "" ∨ ∃ d, w.Atoi (c.String "duration") = .ok d ∧ 0 < d) →
      w.IsValidURL (c.String "url") = true →
      c.String "header" ≠ "" → (w.SplitHeader (c.String "header")).1 ≠ 2 →
      validateCLI w c = { ret := some errNotValidHeader, trace := [] }) ∧
    (c.Int "concurrency" ≠ 0 → w.IsValidURL (c.String "url") = true →
      c.String "header" ≠ "" → (w.SplitHeader (c.String "header")).1 ≠ 2 →
      validateCLIFile w c = { ret := some errNotValidHeader, trace := [] }) ∧
    (∀ cass, (validateCLI w c).started = some cass →
      (c.String "header" ≠ "" →
        cass.RequestHeader = (w.SplitHeader (c.String "header")).2 ∧
        (w.SplitHeader (c.String "header")).1 = 2) ∧
      (c.String "header" = "" → cass.RequestHeader = [])) ∧
    (∀ cass, (validateCLIFile w c).started = some cass →
      (c.String "header" ≠ "" →
        cass.RequestHeader = (w.SplitHeader (c.String "header")).2 ∧
        (w.SplitHeader (c.String "header")).1 = 2) ∧
      (c.String "header" = "" → cass.RequestHeader = [])) := by
  have key : ∀ cass : Cassowary,
      (c.String "header" = "" ∧ cass.RequestHeader = [] ∨
        c.String "header" ≠ "" ∧ (w.SplitHeader (c.String "header")).1 = 2 ∧
          cass.RequestHeader = (w.SplitHeader (c.String "header")).2) →
      (c.String "header" ≠ "" →
        cass.RequestHeader = (w.SplitHeader (c.String "header")).2 ∧
        (w.SplitHeader (c.String "header")).1 = 2) ∧
      (c.String "header" = "" → cass.RequestHeader = []) := by
    intro cass hh
    rcases hh with ⟨he, hnil⟩ | ⟨hne, h2, hl⟩
    · exact ⟨fun hne => absurd he hne, fun _ => hnil⟩
    · exact ⟨fun _ => ⟨hl, h2⟩, fun he => absurd he hne⟩
  refine ⟨?_, ?_, ?_, ?_⟩
  · intro hconc hreq hdur hurl hh hlen
    unfold validateCLI
    rcases hdur with hd | ⟨d, hp, hpos⟩
    · simp [hconc, hreq, hd, hurl, hh, hlen]
    · by_cases hd : c.String "duration" = ""
      · simp [hconc, hreq, hd, hurl, hh, hlen]
      · simp [hconc, hreq, hd, hp, Int.not_le.mpr hpos, hurl, hh, hlen]
  · intro hconc hurl hh hlen
    unfold validateCLIFile
    simp [hconc, hurl, hh, hlen]
  · intro cass h
    obtain ⟨-, -, -, -, hhdr, -⟩ := validateCLI_run w c cass h
    exact key cass hhdr
  · intro cass h
    obtain ⟨-, -, hhdr, -⟩ := validateCLIFile_run w c cass h
    exact key cass hhdr

/-- C6 at `-H Host` (rejected by both commands), at `-H "Host: www.example.com"`
(both start with the two parts) and without `-H` (both start with no header). -/
theorem C6_request_header_witness :
    ((sampleWorld.SplitHeader ((runCtxWith [("header", "Host")]).String "header")).1 = 1 ∧
      validateCLI sampleWorld (runCtxWith [("header", "Host")]) =
        { ret := some errNotValidHeader, trace := [] }) ∧
    ((sampleWorld.SplitHeader ((runFileCtxWith [("header", "Host")]).String "header")).1 = 1 ∧
      validateCLIFile sampleWorld (runFileCtxWith [("header", "Host")]) =
        { ret := some errNotValidHeader, trace := [] }) ∧
    ((validateCLI sampleWorld (runCtxWith [("header", "Host: www.example.com")])).started =
        some { runCfg with RequestHeader := ["Host", " www.example.com"] } ∧
      ({ runCfg with RequestHeader := ["Host", " www.example.com"] } : Cassowary).RequestHeader =
        (sampleWorld.SplitHeader
          ((runCtxWith [("header", "Host: www.example.com")]).String "header")).2 ∧
      (sampleWorld.SplitHeader
        ((runCtxWith [("header", "Host: www.example.com")]).String "header")).1 = 2) ∧
    ((validateCLIFile sampleWorld
          (runFileCtxWith [("header", "Host: www.example.com")])).started =
        some { runFileCfg with RequestHeader := ["Host", " www.example.com"] } ∧
      ({ runFileCfg with RequestHeader := ["Host", " www.example.com"] } :
          Cassowary).RequestHeader =
        (sampleWorld.SplitHeader
          ((runFileCtxWith [("header", "Host: www.example.com")]).String "header")).2 ∧
      (sampleWorld.SplitHeader
        ((runFileCtxWith [("header", "Host: www.example.com")]).String "header")).1 = 2) ∧
    (runCtx.String "header" = "" ∧ (validateCLI sampleWorld runCtx).started = some runCfg ∧
      runCfg.RequestHeader = []) ∧
    (runFileCtx.String "header" = "" ∧
      (validateCLIFile sampleWorld runFileCtx).started = some runFileCfg ∧
      runFileCfg.RequestHeader = []) :=
  ⟨⟨by decide,
    (C6_request_header sampleWorld (runCtxWith [("header", "Host")])).1 (by decide)
      (by decide) (Or.inl (by decide)) (by decide) (by decide) (by decide)⟩,
   ⟨by decide,
    (C6_request_header sampleWorld (runFileCtxWith [("header", "Host")])).2.1 (by decide)
      (by decide) (by decide) (by decide)⟩,
   ⟨by decide,
    ((C6_request_header sampleWorld
      (runCtxWith [("header", "Host: www.example.com")])).2.2.1 _ (by decide)).1 (by decide)⟩,
   ⟨by decide,
    ((C6_request_header sampleWorld
      (runFileCtxWith [("header", "Host: www.example.com")])).2.2.2 _ (by decide)).1
      (by decide)⟩,
   ⟨by decide, by decide,
    ((C6_request_header sampleWorld runCtx).2.2.1 runCfg (by decide)).2 (by decide)⟩,
   ⟨by decide, by decide,
    ((C6_request_header sampleWorld runFileCtx).2.2.2 runFileCfg (by decide)).2 (by decide)⟩⟩

/-! ## C7: keep-alive -/

/-- C7: `validateCLI` copies the `disable-keep-alive` flag into `DisableKeepAlive`.
`validateCLIFile` reads the flag name `diable-keep-alive` (line 189), which the
`run-file` command does not declare, so for every context that command accepts the
configuration it starts the load test with has `DisableKeepAlive = false`, whatever
the `disable-keep-alive` flag is. -/
theorem C7_keep_alive {M : Type} (w : World M) (c : Context) :
    (∀ cass, (validateCLI w c).started = some cass →
      cass.DisableKeepAlive = c.Bool "disable-keep-alive") ∧
    (runFileCommand.accepts c = true →
      ∀ cass, (validateCLIFile w c).started = some cass → cass.DisableKeepAlive = false) := by
  refine ⟨?_, ?_⟩
  · intro cass h
    obtain ⟨-, -, -, -, -, -, -, -, -, -, -, -, -, -, hk, -⟩ := validateCLI_run w c cass h
    exact hk
  · intro hacc cass h
    obtain ⟨-, -, -, -, -, -, -, -, -, -, -, -, hk, -⟩ := validateCLIFile_run w c cass h
    rw [hk]
    exact bool_of_undeclared runFileCommand c "diable-keep-alive" hacc (by decide)

/-- C7 at `--disable-keep-alive`: the `run` command starts the load test with
`DisableKeepAlive = true`, the `run-file` command starts it with
`DisableKeepAlive = false` although the flag is `true`. -/
theorem C7_keep_alive_witness :
    ((validateCLI sampleWorld keepAliveCtx).started =
        some { runCfg with DisableKeepAlive := true } ∧
      ({ runCfg with DisableKeepAlive := true } : Cassowary).DisableKeepAlive =
        keepAliveCtx.Bool "disable-keep-alive") ∧
    (runFileCommand.accepts keepAliveFileCtx = true ∧
      keepAliveFileCtx.Bool "disable-keep-alive" = true ∧
      (validateCLIFile sampleWorld keepAliveFileCtx).started = some runFileCfg ∧
      runFileCfg.DisableKeepAlive = false) :=
  ⟨⟨by decide, (C7_keep_alive sampleWorld keepAliveCtx).1 _ (by decide)⟩,
   ⟨by decide, by decide, by decide,
    (C7_keep_alive sampleWorld keepAliveFileCtx).2 (by decide) runFileCfg (by decide)⟩⟩

/-! ## C8: method and body -/

/-- C8: whenever `validateCLI` starts the load test, `HTTPMethod` is GET, POST or
PUT: POST with `Data` the content read from the `postfile` flag when that flag is set;
PUT with `Data` the content read from the `putfile` flag when `postfile` is empty and
`putfile` is set; GET with empty `Data` when both are empty. When the selected file
cannot be read the load test is not started, and when the checks before the read pass
the value returned is the read error, with no effect. -/
theorem C8_method_and_body {M : Type} (w : World M) (c : Context) :
    (∀ cass, (validateCLI w c).started = some cass →
      (cass.HTTPMethod = "GET" ∨ cass.HTTPMethod = "POST" ∨ cass.HTTPMethod = "PUT") ∧
      (c.String "postfile" ≠ "" →
        cass.HTTPMethod = "POST" ∧ w.readFile (c.String "postfile") = .ok cass.Data) ∧
      (c.String "postfile" = "" → c.String "putfile" ≠ "" →
        cass.HTTPMethod = "PUT" ∧ w.readFile (c.String "putfile") = .ok cass.Data) ∧
      (c.String "postfile" = "" → c.String "putfile" = "" →
        cass.HTTPMethod = "GET" ∧ cass.Data = [])) ∧
    (∀ err, c.String "postfile" ≠ "" → w.readFile (c.String "postfile") = .error err →
      (validateCLI w c).started = none ∧
      (c.Int "concurrency" ≠ 0 → c.Int "requests" ≠ 0 →
        (c.String "duration" = "" ∨ ∃ d, w.Atoi (c.String "duration") = .ok d ∧ 0 < d) →
        w.IsValidURL (c.String "url") = true →
        (c.String "header" = "" ∨ (w.SplitHeader (c.String "header")).1 = 2) →
        validateCLI w c = { ret := some err, trace := [] })) ∧
    (∀ err, c.String "postfile" = "" → c.String "putfile" ≠ "" →
      w.readFile (c.String "putfile") = .error err →
      (validateCLI w c).started = none ∧
      (c.Int "concurrency" ≠ 0 → c.Int "requests" ≠ 0 →
        (c.String "duration" = "" ∨ ∃ d, w.Atoi (c.String "duration") = .ok d ∧ 0 < d) →
        w.IsValidURL (c.String "url") = true →
        (c.String "header" = "" ∨ (w.SplitHeader (c.String "header")).1 = 2) →
        validateCLI w c = { ret := some err, trace := [] })) := by
  have nostart : ∀ o : Option Cassowary, (∀ cass, o = some cass → False) → o = none := by
    intro o ho
    cases o with
    | none => rfl
    | some cass => exact absurd rfl (ho cass)
  refine ⟨?_, ?_, ?_⟩
  · intro cass h
    obtain ⟨-, -, -, -, -, hbody, -⟩ := validateCLI_run w c cass h
    rcases hbody with ⟨hp, hm, hd⟩ | ⟨hp, hq, hm, hd⟩ | ⟨hp, hq, hm, hd⟩
    · exact ⟨Or.inr (Or.inl hm), fun _ => ⟨hm, hd⟩, fun he => absurd he hp,
        fun he => absurd he hp⟩
    · exact ⟨Or.inr (Or.inr hm), fun hne => absurd hp hne, fun _ _ => ⟨hm, hd⟩,
        fun _ he => absurd he hq⟩
    · exact ⟨Or.inl hm, fun hne => absurd hp hne, fun _ hne => absurd hq hne,
        fun _ _ => ⟨hm, hd⟩⟩
  · intro err hp hread
    constructor
    · apply nostart
      intro cass h
      obtain ⟨-, -, -, -, -, hbody, -⟩ := validateCLI_run w c cass h
      rcases hbody with ⟨-, -, hd⟩ | ⟨he, -⟩ | ⟨he, -⟩
      · rw [hread] at hd
        cases hd
      · exact hp he
      · exact hp he
    · intro hconc hreq hdur hurl hhdr
      unfold validateCLI
      have hdur2 : (if c.String "duration" ≠ "" then
            match w.Atoi (c.String "duration") with
            | .error err => Except.error err
            | .ok duration => if duration ≤ 0 then .error errDurationValue else .ok duration
          else .ok 0) = Except.ok (if c.String "duration" ≠ "" then
            (match w.Atoi (c.String "duration") with | .ok d => d | .error _ => 0) else 0) := by
        rcases hdur with hd | ⟨d, hpd, hpos⟩
        · simp [hd]
        · by_cases hd : c.String "duration" = ""
          · simp [hd]
          · simp [hd, hpd, Int.not_le.mpr hpos]
      have hhdr2 : (if c.String "header" ≠ "" then
            if (w.SplitHeader (c.String "header")).1 ≠ 2 then Except.error errNotValidHeader
            else .ok (w.SplitHeader (c.String "header")).2
          else .ok []) = Except.ok (if c.String "header" ≠ "" then
            (w.SplitHeader (c.String "header")).2 else []) := by
        rcases hhdr with hh | hh
        · simp [hh]
        · by_cases he : c.String "header" = "" <;> simp [he, hh]
      simp only [hconc, hreq, if_false, hdur2, hhdr2, hurl, Bool.true_eq_false]
      simp [hp, hread]
  · intro err hp hq hread
    constructor
    · apply nostart
      intro cass h
      obtain ⟨-, -, -, -, -, hbody, -⟩ := validateCLI_run w c cass h
      rcases hbody with ⟨hne, -⟩ | ⟨-, -, -, hd⟩ | ⟨-, he, -⟩
      · exact hne hp
      · rw [hread] at hd
        cases hd
      · exact hq he
    · intro hconc hreq hdur hurl hhdr
      unfold validateCLI
      have hdur2 : (if c.String "duration" ≠ "" then
            match w.Atoi (c.String "duration") with
            | .error err => Except.error err
            | .ok duration => if duration ≤ 0 then .error errDurationValue else .ok duration
          else .ok 0) = Except.ok (if c.String "duration" ≠ "" then
            (match w.Atoi (c.String "duration") with | .ok d => d | .error _ => 0) else 0) := by
        rcases hdur with hd | ⟨d, hpd, hpos⟩
        · simp [hd]
        · by_cases hd : c.String "duration" = ""
          · simp [hd]
          · simp [hd, hpd, Int.not_le.mpr hpos]
      have hhdr2 : (if c.String "header" ≠ "" then
            if (w.SplitHeader (c.String "header")).1 ≠ 2 then Except.error errNotValidHeader
            else .ok (w.SplitHeader (c.String "header")).2
          else .ok []) = Except.ok (if c.String "header" ≠ "" then
            (w.SplitHeader (c.String "header")).2 else []) := by
        rcases hhdr with hh | hh
        · simp [hh]
        · by_cases he : c.String "header" = "" <;> simp [he, hh]
      simp only [hconc, hreq, if_false, hdur2, hhdr2, hurl, Bool.true_eq_false]
      simp [hp, hq, hread]

/-- C8 at `--postfile body.json --putfile other.json` (POST wins), at
`--putfile body.json` (PUT), without either (GET), and at an unreadable `--postfile`
and `--putfile` (the read error is returned, nothing starts). -/
theorem C8_method_and_body_witness :
    ((validateCLI sampleWorld
          (runCtxWith [("postfile", "body.json"), ("putfile", "other.json")])).started =
        some { runCfg with HTTPMethod := "POST", Data := [123, 125] } ∧
      sampleWorld.readFile
          ((runCtxWith [("postfile", "body.json"), ("putfile", "other.json")]).String
            "postfile") = .ok [123, 125]) ∧
    ((validateCLI sampleWorld (runCtxWith [("putfile", "body.json")])).started =
        some { runCfg with HTTPMethod := "PUT", Data := [123, 125] } ∧
      sampleWorld.readFile ((runCtxWith [("putfile", "body.json")]).String "putfile") =
        .ok [123, 125]) ∧
    ((validateCLI sampleWorld runCtx).started = some runCfg ∧
      runCfg.HTTPMethod = "GET" ∧ runCfg.Data = []) ∧
    (sampleWorld.readFile ((runCtxWith [("postfile", "nobody.json")]).String "postfile") =
        .error (.external "open: no such file or directory") ∧
      validateCLI sampleWorld (runCtxWith [("postfile", "nobody.json")]) =
        { ret := some (.external "open: no such file or directory"), trace := [] }) ∧
    (sampleWorld.readFile ((runCtxWith [("putfile", "nobody.json")]).String "putfile") =
        .error (.external "open: no such file or directory") ∧
      validateCLI sampleWorld (runCtxWith [("putfile", "nobody.json")]) =
        { ret := some (.external "open: no such file or directory"), trace := [] }) :=
  ⟨⟨by decide,
    (((C8_method_and_body sampleWorld
      (runCtxWith [("postfile", "body.json"), ("putfile", "other.json")])).1
      { runCfg with HTTPMethod := "POST", Data := [123, 125] } (by decide)).2.1
      (by decide)).2⟩,
   ⟨by decide,
    (((C8_method_and_body sampleWorld (runCtxWith [("putfile", "body.json")])).1
      { runCfg with HTTPMethod := "PUT", Data := [123, 125] } (by decide)).2.2.1
      (by decide) (by decide)).2⟩,
   ⟨by decide,
    ((C8_method_and_body sampleWorld runCtx).1 runCfg (by decide)).2.2.2
      (by decide) (by decide)⟩,
   ⟨by decide,
    ((C8_method_and_body sampleWorld (runCtxWith [("postfile", "nobody.json")])).2.1
      (.external "open: no such file or directory") (by decide) (by decide)).2
      (by decide) (by decide) (Or.inl (by decide)) (by decide) (Or.inl (by decide))⟩,
   ⟨by decide,
    ((C8_method_and_body sampleWorld (runCtxWith [("putfile", "nobody.json")])).2.2
      (.external "open: no such file or directory") (by decide) (by decide) (by decide)).2
      (by decide) (by decide) (Or.inl (by decide)) (by decide) (Or.inl (by decide))⟩⟩

/-! ## C9: JSON export -/

/-- C9, as stated, fails: with `--json-metrics --json-metrics-file
/no/such/dir/out.json` the load test succeeds and `ExportMetrics` is true, but
`os.OpenFile` fails, so `runLoadTest` returns that error (line 49) and writes no
metrics. -/
theorem C9_export_fails_to_open :
    sampleWorld.Coordinate exportUnwritableCfg = .ok 7 ∧
    exportUnwritableCfg.ExportMetrics = true ∧
    (runLoadTest sampleWorld exportUnwritableCfg).written = [] ∧
    (runLoadTest sampleWorld exportUnwritableCfg).ret =
      some (.external "open: no such file or directory") := by
  decide

/-- C9, amended: `runLoadTest` writes metrics as JSON to a file exactly when
`Coordinate` succeeds with those metrics, `ExportMetrics` is true and the file is
`ExportMetricsFile` (or `out.json` when that is empty) and could be opened. The whole
outcome is fixed in each case. When `Coordinate` succeeds and `ExportMetrics` is
false, the results are printed, no file is touched and `nil` is returned. When
`ExportMetrics` is true and the open fails, the results are printed, the only file
step is the failed open and its error is returned. When the open succeeds, the
results are printed, the metrics are encoded into that file, the file is closed and
the result of the encoder is returned. When `Coordinate` returns an error,
`runLoadTest` returns that error and the call of `Coordinate` is its only step:
nothing is printed and no file is opened or written. -/
theorem C9_json_export {M : Type} (w : World M) (c : Cassowary) :
    (∀ fileName metrics, (fileName, metrics) ∈ (runLoadTest w c).written ↔
      w.Coordinate c = .ok metrics ∧ c.ExportMetrics = true ∧
      fileName = (if c.ExportMetricsFile = "" then "out.json" else c.ExportMetricsFile) ∧
      w.OpenFile fileName = none) ∧
    (∀ metrics, w.Coordinate c = .ok metrics → c.ExportMetrics = false →
      runLoadTest w c =
        { ret := none, trace := [.coordinate c, .outPutResults metrics] }) ∧
    (∀ metrics err, w.Coordinate c = .ok metrics → c.ExportMetrics = true →
      w.OpenFile (if c.ExportMetricsFile = "" then "out.json" else c.ExportMetricsFile) =
        some err →
      runLoadTest w c =
        { ret := some err,
          trace := [.coordinate c, .outPutResults metrics,
            .openFile (if c.ExportMetricsFile = "" then "out.json"
              else c.ExportMetricsFile)] }) ∧
    (∀ metrics, w.Coordinate c = .ok metrics → c.ExportMetrics = true →
      w.OpenFile (if c.ExportMetricsFile = "" then "out.json" else c.ExportMetricsFile) =
        none →
      runLoadTest w c =
        { ret := w.Encode (if c.ExportMetricsFile = "" then "out.json"
              else c.ExportMetricsFile) metrics,
          trace := [.coordinate c, .outPutResults metrics,
            .openFile (if c.ExportMetricsFile = "" then "out.json"
              else c.ExportMetricsFile),
            .encode (if c.ExportMetricsFile = "" then "out.json"
              else c.ExportMetricsFile) metrics,
            .close (if c.ExportMetricsFile = "" then "out.json"
              else c.ExportMetricsFile)] }) ∧
    (∀ err, w.Coordinate c = .error err →
      runLoadTest w c = { ret := some err, trace := [.coordinate c] }) := by
  refine ⟨?_, ?_, ?_, ?_, ?_⟩
  · intro fileName metrics
    unfold runLoadTest
    cases hco : w.Coordinate c with
    | error e => simp [Outcome.written]
    | ok m =>
      by_cases hx : c.ExportMetrics = true
      · simp only [hx, if_true]
        unfold outPutJSON
        cases hop : w.OpenFile (if c.ExportMetricsFile = "" then "out.json"
            else c.ExportMetricsFile) with
        | some e =>
          simp only [hop, Outcome.written, List.filterMap_cons, List.filterMap_nil,
            List.not_mem_nil, false_iff]
          rintro ⟨-, -, hf, hnone⟩
          rw [hf, hop] at hnone
          cases hnone
        | none =>
          simp only [hop, Outcome.written, List.filterMap_cons, List.filterMap_nil,
            List.mem_singleton, Prod.mk.injEq, Except.ok.injEq, true_and]
          constructor
          · rintro ⟨hf, hm⟩
            exact ⟨hm.symm, hf, by rw [hf]; exact hop⟩
          · rintro ⟨hm, hf, -⟩
            exact ⟨hf, hm.symm⟩
      · simp [hx, Outcome.written]
  · intro metrics hco hx
    unfold runLoadTest
    simp [hco, hx]
  · intro metrics err hco hx hop
    unfold runLoadTest
    simp only [hco, hx, if_true]
    unfold outPutJSON
    simp only [hop]
  · intro metrics hco hx hop
    unfold runLoadTest
    simp only [hco, hx, if_true]
    unfold outPutJSON
    simp only [hop]
  · intro err hco
    unfold runLoadTest
    simp only [hco]

/-- C9, amended, at an export to `metrics.json` (written there), at a run without
export (printed only), at an export to a file that cannot be opened (the open error
is returned, nothing encoded), at an export to the default file (encoded into
`out.json`) and at a failing load test (its error is returned and `Coordinate` is
the only step). -/
theorem C9_json_export_witness :
    (("metrics.json", 7) ∈ (runLoadTest sampleWorld exportNamedCfg).written ∧
      sampleWorld.Coordinate exportNamedCfg = .ok 7 ∧ exportNamedCfg.ExportMetrics = true ∧
      sampleWorld.OpenFile "metrics.json" = none) ∧
    (sampleWorld.Coordinate runCfg = .ok 7 ∧ runCfg.ExportMetrics = false ∧
      runLoadTest sampleWorld runCfg =
        { ret := none, trace := [.coordinate runCfg, .outPutResults 7] }) ∧
    (sampleWorld.OpenFile "/no/such/dir/out.json" =
        some (.external "open: no such file or directory") ∧
      runLoadTest sampleWorld exportUnwritableCfg =
        { ret := some (.external "open: no such file or directory"),
          trace := [.coordinate exportUnwritableCfg, .outPutResults 7,
            .openFile "/no/such/dir/out.json"] }) ∧
    (sampleWorld.OpenFile "out.json" = none ∧
      runLoadTest sampleWorld exportCfg =
        { ret := sampleWorld.Encode "out.json" 7,
          trace := [.coordinate exportCfg, .outPutResults 7, .openFile "out.json",
            .encode "out.json" 7, .close "out.json"] }) ∧
    (failingWorld.Coordinate exportCfg = .error (.external "coordinate failed") ∧
      runLoadTest failingWorld exportCfg =
        { ret := some (.external "coordinate failed"),
          trace := [.coordinate exportCfg] }) :=
  ⟨⟨by decide,
    ((C9_json_export sampleWorld exportNamedCfg).1 "metrics.json" 7).mp (by decide) |>.1,
    ((C9_json_export sampleWorld exportNamedCfg).1 "metrics.json" 7).mp (by decide) |>.2.1,
    ((C9_json_export sampleWorld exportNamedCfg).1 "metrics.json" 7).mp (by decide) |>.2.2.2⟩,
   ⟨by decide, by decide,
    (C9_json_export sampleWorld runCfg).2.1 7 (by decide) (by decide)⟩,
   ⟨by decide,
    (C9_json_export sampleWorld exportUnwritableCfg).2.2.1 7
      (.external "open: no such file or directory") (by decide) (by decide) (by decide)⟩,
   ⟨by decide,
    (C9_json_export sampleWorld exportCfg).2.2.2.1 7 (by decide) (by decide) (by decide)⟩,
   ⟨by decide, (C9_json_export failingWorld exportCfg).2.2.2.2 _ (by decide)⟩⟩

/-! ## C10: mode fields -/

/-- C10: a configuration `validateCLI` starts the load test with has
`FileMode = false` and no `URLPaths`; one `validateCLIFile` starts it with has
`FileMode = true`, `URLPaths` the list returned by `readLocalRemoteFile`,
`HTTPMethod = "GET"`, empty `Data` and `Duration = 0`. In both `PromExport` is true
exactly when the `prompushgwurl` flag is non-empty and `PromURL` is that flag. -/
theorem C10_mode_fields {M : Type} (w : World M) (c : Context) :
    (∀ cass, (validateCLI w c).started = some cass →
      cass.FileMode = false ∧ cass.URLPaths = [] ∧
      (cass.PromExport = true ↔ c.String "prompushgwurl" ≠ "") ∧
      cass.PromURL = c.String "prompushgwurl") ∧
    (∀ cass, (validateCLIFile w c).started = some cass →
      cass.FileMode = true ∧
      w.readLocalRemoteFile (c.String "file") = .ok cass.URLPaths ∧
      cass.HTTPMethod = "GET" ∧ cass.Data = [] ∧ cass.Duration = 0 ∧
      (cass.PromExport = true ↔ c.String "prompushgwurl" ≠ "") ∧
      cass.PromURL = c.String "prompushgwurl") := by
  refine ⟨?_, ?_⟩
  · intro cass h
    obtain ⟨-, -, -, -, -, -, hfm, -, -, -, hpe, hpu, -, -, -, -, hpaths⟩ :=
      validateCLI_run w c cass h
    exact ⟨hfm, hpaths, by rw [hpe]; simp, hpu⟩
  · intro cass h
    obtain ⟨-, -, -, hfile, hfm, -, -, -, hpe, hpu, -, -, -, -, hm, hdata, hdur⟩ :=
      validateCLIFile_run w c cass h
    exact ⟨hfm, hfile, hm, hdata, hdur, by rw [hpe]; simp, hpu⟩

/-- C10 at `-p http://localhost:9091` for both commands. -/
theorem C10_mode_fields_witness :
    ((validateCLI sampleWorld
          (runCtxWith [("prompushgwurl", "http://localhost:9091")])).started =
        some { runCfg with PromExport := true, PromURL := "http://localhost:9091" } ∧
      ({ runCfg with PromExport := true, PromURL := "http://localhost:9091" } :
        Cassowary).FileMode = false ∧
      ({ runCfg with PromExport := true, PromURL := "http://localhost:9091" } :
        Cassowary).URLPaths = []) ∧
    ((validateCLIFile sampleWorld
          (runFileCtxWith [("prompushgwurl", "http://localhost:9091")])).started =
        some { runFileCfg with PromExport := true, PromURL := "http://localhost:9091" } ∧
      ({ runFileCfg with PromExport := true, PromURL := "http://localhost:9091" } :
        Cassowary).FileMode = true ∧
      sampleWorld.readLocalRemoteFile
          ((runFileCtxWith [("prompushgwurl", "http://localhost:9091")]).String "file") =
        .ok ["/get", "/status/200"]) :=
  ⟨⟨by decide,
    ((C10_mode_fields sampleWorld
      (runCtxWith [("prompushgwurl", "http://localhost:9091")])).1
      { runCfg with PromExport := true, PromURL := "http://localhost:9091" } (by decide)).1,
    ((C10_mode_fields sampleWorld
      (runCtxWith [("prompushgwurl", "http://localhost:9091")])).1
      { runCfg with PromExport := true, PromURL := "http://localhost:9091" }
      (by decide)).2.1⟩,
   ⟨by decide,
    ((C10_mode_fields sampleWorld
      (runFileCtxWith [("prompushgwurl", "http://localhost:9091")])).2
      { runFileCfg with PromExport := true, PromURL := "http://localhost:9091" }
      (by decide)).1,
    ((C10_mode_fields sampleWorld
      (runFileCtxWith [("prompushgwurl", "http://localhost:9091")])).2
      { runFileCfg with PromExport := true, PromURL := "http://localhost:9091" }
      (by decide)).2.1⟩⟩

end CassowaryCLI
